import Mathlib

/-!
# link-preview-card: a shallow embedding of `src/link-preview-card.js`

The development models the state-changing members of the `LinkPreviewCard`
custom element (`constructor`, `fetchData`, `defaultTheme`, `ImageError`) and
proves or refutes the properties the specification states about them.

Modelling decisions
* JavaScript values are the data values that can reach the element's
  properties: `undefined` plus everything `JSON.parse` can produce.
* A method is a function from the world (the element's properties together with
  the trace of effects issued so far) to a completion (normal or thrown) and the
  world at that point; a throw keeps every write made before it.
* The remote metadata service is an input: the outcome of the request is a
  parameter of `fetchData`.
-/

namespace LinkCard

/-! ## Values -/

/-- JavaScript data values. A number is kept as the 64 bits of its IEEE-754
representation; only its truthiness is ever inspected. -/
inductive JSValue where
  | undefined
  | null
  | bool (b : Bool)
  | number (bits : Nat)
  | string (s : String)
  | array (items : List JSValue)
  | object (props : List (String × JSValue))

/-- Thrown values. -/
inductive JSError where
  | referenceError (name : String)
  | typeError (msg : String)
  | syntaxError (msg : String)
  | error (msg : String)
  deriving DecidableEq

/-- A number is `+0`, `-0` (all bits below the sign are zero) or a `NaN`
(exponent all ones, mantissa not zero). -/
def isZeroOrNaN (bits : Nat) : Bool :=
  let magnitude := bits % 2 ^ 63
  magnitude == 0 || decide (0x7FF0000000000000 < magnitude)

/-- The abstract operation ToBoolean, applied by `if (...)`. -/
def toBoolean : JSValue → Bool
  | .undefined => false
  | .null => false
  | .bool b => b
  | .number bits => !isZeroOrNaN bits
  | .string s => !s.data.isEmpty
  | .array _ => true
  | .object _ => true

/-- Strict equality `v === "lit"` against a string literal. -/
def strictEqualsString (v : JSValue) (lit : String) : Bool :=
  match v with
  | .string s => decide (s = lit)
  | _ => false

/-- Property read `v[key]` (or `v.key`) for the property names the source uses
(`title`, `description`, `image`, `logo`, `url`, `themeColor` and the `og:` and
`twitter:` variants). None of them is an index, `length` or a member of a
built-in prototype, so the read finds a value only among the own properties of
an object; on `undefined` and `null` it throws a TypeError. An object is the
list of its own properties, a key being looked up from the front. -/
def getProp (v : JSValue) (key : String) : Except JSError JSValue :=
  match v with
  | .undefined => .error (.typeError ("Cannot read properties of undefined (reading " ++ key ++ ")"))
  | .null => .error (.typeError ("Cannot read properties of null (reading " ++ key ++ ")"))
  | .object props =>
    match props.lookup key with
    | some x => .ok x
    | none => .ok .undefined
  | _ => .ok .undefined

/-! ## Strings -/

/-- UTF-16 code units of a character. -/
def utf16Units (c : Char) : List Nat :=
  if c.toNat < 0x10000 then [c.toNat]
  else [0xD800 + (c.toNat - 0x10000) / 0x400, 0xDC00 + (c.toNat - 0x10000) % 0x400]

/-- The code units of a string, the sequence `String.prototype.includes`
searches. -/
def codeUnits (s : String) : List Nat :=
  s.data.flatMap utf16Units

/-- Search for `needle` at the front of `hay`, then at each later position in
ascending order (StringIndexOf), reporting whether some position matches. -/
def includesUnits (needle : List Nat) : List Nat → Bool
  | [] => needle.isPrefixOf []
  | u :: us => needle.isPrefixOf (u :: us) || includesUnits needle us

/-- The call `s.includes(search)`. -/
def jsIncludes (s search : String) : Bool :=
  includesUnits (codeUnits search) (codeUnits s)

/-! ## The element -/

/-- The properties of a `LinkPreviewCard` that the source initialises in its
constructor. `herf`, `link` (declared `type: String`) hold strings and
`loadingState` (declared `type: Boolean`) a boolean; the other five receive
whatever the parsed response carries. -/
structure LinkPreviewCard where
  title : JSValue
  herf : String
  description : JSValue
  image : JSValue
  url : JSValue
  link : String
  themeColor : JSValue
  loadingState : Bool

/-- Observable events, in the order the source issues them. -/
inductive Effect where
  | write (property : String) (value : JSValue)
  | fetch (url : String)
  | consoleError (label : String) (err : JSError)
  | consoleLog (msg : String)
  | requestUpdate

/-- The element together with the trace of events so far. -/
structure World where
  card : LinkPreviewCard
  effects : List Effect

/-- A computation: from a world to a completion and the world reached. -/
def JS (α : Type) : Type := World → Except JSError α × World

namespace JS

/-- Normal completion with a value. -/
def pure {α : Type} (a : α) : JS α := fun w => (.ok a, w)

/-- Sequencing: an abrupt completion skips the rest. -/
def bind {α β : Type} (x : JS α) (f : α → JS β) : JS β := fun w =>
  match x w with
  | (.ok a, w1) => f a w1
  | (.error e, w1) => (.error e, w1)

/-- The statement `throw e`. -/
def throw {α : Type} (e : JSError) : JS α := fun w => (.error e, w)

/-- The statement `try { body } catch (error) { handler }`. -/
def tryCatch {α : Type} (body : JS α) (handler : JSError → JS α) : JS α := fun w =>
  match body w with
  | (.ok a, w1) => (.ok a, w1)
  | (.error e, w1) => handler e w1

/-- The statement `try { body } finally { cleanup }`: the cleanup runs on every
exit, and the completion of the body stands unless the cleanup itself throws. -/
def tryFinally {α : Type} (body : JS α) (cleanup : JS Unit) : JS α := fun w =>
  match body w with
  | (r, w1) =>
    match cleanup w1 with
    | (.ok _, w2) => (r, w2)
    | (.error e, w2) => (.error e, w2)

/-- Lift a value-level result (a property read) into a computation. -/
def ofExcept {α : Type} (r : Except JSError α) : JS α := fun w => (r, w)

/-- Append an event to the trace. -/
def emit (e : Effect) : JS Unit := fun w =>
  (.ok (), { w with effects := w.effects ++ [e] })

end JS

instance : Monad JS where
  pure := JS.pure
  bind := JS.bind

/-! ## Property writes -/

/-- The assignment `this.title = v`. -/
def setTitle (v : JSValue) : JS Unit := fun w =>
  (.ok (), { card := { w.card with title := v }, effects := w.effects ++ [.write "title" v] })

/-- The assignment `this.description = v`. -/
def setDescription (v : JSValue) : JS Unit := fun w =>
  (.ok (), { card := { w.card with description := v },
             effects := w.effects ++ [.write "description" v] })

/-- The assignment `this.image = v`. -/
def setImage (v : JSValue) : JS Unit := fun w =>
  (.ok (), { card := { w.card with image := v }, effects := w.effects ++ [.write "image" v] })

/-- The assignment `this.url = v`. -/
def setUrl (v : JSValue) : JS Unit := fun w =>
  (.ok (), { card := { w.card with url := v }, effects := w.effects ++ [.write "url" v] })

/-- The assignment `this.themeColor = v`. -/
def setThemeColor (v : JSValue) : JS Unit := fun w =>
  (.ok (), { card := { w.card with themeColor := v },
             effects := w.effects ++ [.write "themeColor" v] })

/-- The assignment `this.loadingState = b`. -/
def setLoadingState (b : Bool) : JS Unit := fun w =>
  (.ok (), { card := { w.card with loadingState := b },
             effects := w.effects ++ [.write "loadingState" (.bool b)] })

/-! ## `defaultTheme` -/

/-- The method `defaultTheme()` (lines 123-131), a function of `this.herf`. -/
def defaultTheme (herf : String) : String :=
  if jsIncludes herf "psu.edu" then "var(--ddd-theme-2)" else "var(--ddd-theme-15)"

/-- The bare identifier `defaultTheme` (lines 29, 109 and 117). The file is a
module, whose scope holds its imports (`LitElement`, `html`, `css`, `DDDSuper`,
`I18NMixin`) and the class `LinkPreviewCard`; `defaultTheme` is a method of the
class, reachable as `this.defaultTheme` and not as a name in scope, and the
repository defines no global of that name. Evaluating the identifier therefore
throws a ReferenceError. -/
def bareDefaultTheme : Except JSError JSValue :=
  .error (.referenceError "defaultTheme")

/-- A call `f()` of a data value: none is callable. -/
def callValue (_f : JSValue) : Except JSError JSValue :=
  .error (.typeError "defaultTheme is not a function")

/-! ## The remote call -/

/-- What the source reads of a `Response`: `ok`, `status`, and the completion
of `response.json()` (the parsed body, or the error it rejects with). -/
structure Response where
  ok : Bool
  status : Nat
  json : Except JSError JSValue

/-- The completion of `await fetch(url)`. -/
inductive FetchOutcome where
  | rejected (reason : JSError)
  | fulfilled (response : Response)

/-- A response as the Fetch standard builds it: `ok` holds exactly for a status
from 200 to 299. -/
def httpResponse (status : Nat) (json : Except JSError JSValue) : Response :=
  { ok := decide (200 ≤ status ∧ status ≤ 299), status := status, json := json }

/-- The expression `await fetch(url)`. -/
def fetch (url : String) (remote : FetchOutcome) : JS Response := do
  JS.emit (.fetch url)
  match remote with
  | .rejected reason => JS.throw reason
  | .fulfilled response => pure response

/-- The request URL of line 62. -/
def requestUrl (link : String) : String :=
  "https://open-apis.hax.cloud/api/services/website/metadata?q=" ++ link

/-! ## `fetchData` -/

/-- Lines 70-78. -/
def extractTitle (json : JSValue) : JS Unit := do
  if toBoolean (← JS.ofExcept (getProp json "title")) then
    setTitle (← JS.ofExcept (getProp (← JS.ofExcept (getProp json "title")) "title"))
  else if strictEqualsString (← JS.ofExcept (getProp json "title")) "og:title" then
    setTitle (← JS.ofExcept (getProp (← JS.ofExcept (getProp json "title")) "og:title"))
  else if strictEqualsString (← JS.ofExcept (getProp json "title")) "twitter:title" then
    setTitle (← JS.ofExcept (getProp (← JS.ofExcept (getProp json "title")) "twitter:title"))
  else
    setTitle (.string "Not Found")

/-- Lines 80-88. -/
def extractDescription (json : JSValue) : JS Unit := do
  if toBoolean (← JS.ofExcept (getProp json "description")) then
    setDescription
      (← JS.ofExcept (getProp (← JS.ofExcept (getProp json "description")) "description"))
  else if strictEqualsString (← JS.ofExcept (getProp json "description")) "og:description" then
    setDescription
      (← JS.ofExcept (getProp (← JS.ofExcept (getProp json "description")) "og:description"))
  else if strictEqualsString (← JS.ofExcept (getProp json "description"))
      "twitter:description" then
    setDescription
      (← JS.ofExcept (getProp (← JS.ofExcept (getProp json "description")) "twitter:description"))
  else
    setDescription (.string "Not Found")

/-- Lines 90-98. -/
def extractImage (json : JSValue) : JS Unit := do
  if toBoolean (← JS.ofExcept (getProp json "image")) then
    setImage (← JS.ofExcept (getProp (← JS.ofExcept (getProp json "image")) "logo"))
  else if strictEqualsString (← JS.ofExcept (getProp json "image")) "og:image" then
    setImage (← JS.ofExcept (getProp (← JS.ofExcept (getProp json "image")) "og:image"))
  else if strictEqualsString (← JS.ofExcept (getProp json "image")) "twitter:image" then
    setImage (← JS.ofExcept (getProp (← JS.ofExcept (getProp json "image")) "twitter:image"))
  else
    setImage (.string "Not Found")

/-- Lines 100-104. -/
def extractUrl (json : JSValue) : JS Unit := do
  if toBoolean (← JS.ofExcept (getProp json "url")) then
    setUrl (← JS.ofExcept (getProp (← JS.ofExcept (getProp json "url")) "url"))
  else
    setUrl (.string "Not Found")

/-- Lines 106-110. The `else` branch reads the bare identifier. -/
def extractThemeColor (json : JSValue) : JS Unit := do
  if toBoolean (← JS.ofExcept (getProp json "themeColor")) then
    setThemeColor
      (← JS.ofExcept (getProp (← JS.ofExcept (getProp json "themeColor")) "themeColor"))
  else
    setThemeColor (← JS.ofExcept bareDefaultTheme)

/-- The `try` block, lines 64-110. -/
def tryBlock (url : String) (remote : FetchOutcome) : JS Unit := do
  let response ← fetch url remote
  if !response.ok then
    JS.throw (.error ("Response Status: " ++ toString response.status))
  let json ← JS.ofExcept response.json
  extractTitle json
  extractDescription json
  extractImage json
  extractUrl json
  extractThemeColor json

/-- The `catch` block, lines 112-117. The last statement calls the bare
identifier. -/
def catchBlock (error : JSError) : JS Unit := do
  JS.emit (.consoleError "Error fetching metadata:" error)
  setTitle (.string "Error finding website title")
  setDescription (.string " ")
  setImage (.string " ")
  setUrl (.string " ")
  setThemeColor (← JS.ofExcept (bareDefaultTheme >>= callValue))

/-- The `finally` block, line 119. -/
def finallyBlock : JS Unit :=
  setLoadingState false

/-- The method `fetchData(link)` (lines 60-121), run to completion against the
given outcome of the remote call. -/
def fetchData (link : String) (remote : FetchOutcome) : JS Unit := do
  setLoadingState true
  let url := requestUrl link
  JS.tryFinally (JS.tryCatch (tryBlock url remote) catchBlock) finallyBlock

/-! ## `ImageError` and the constructor -/

/-- The method `ImageError()` (lines 132-137). -/
def ImageError : JS Unit := do
  JS.emit (.consoleLog "Image failed to load")
  setImage (.string " ")
  JS.emit .requestUpdate

/-- The property initialisers of the constructor (lines 23-30), as evaluated by
`new LinkPreviewCard()`: the instance is handed to the caller only if every
statement completes. Line 29 calls the bare identifier. -/
def construct : Except JSError LinkPreviewCard := do
  let title := JSValue.string ""
  let herf := ""
  let description := JSValue.string ""
  let image := JSValue.string ""
  let url := JSValue.string ""
  let link := ""
  let themeColor ← bareDefaultTheme >>= callValue
  let loadingState := false
  pure { title := title, herf := herf, description := description, image := image,
         url := url, link := link, themeColor := themeColor, loadingState := loadingState }

/-! ## The routine without the `og:` and `twitter:` branches

The specification describes the extraction as "check truthiness of top-level
key, then index one fixed sub-key". The definitions below are `fetchData` with
the six `else if` branches of lines 72-75, 82-85 and 92-95 removed. -/

/-- Lines 70-78 without the two `else if` branches. -/
def extractTitlePruned (json : JSValue) : JS Unit := do
  if toBoolean (← JS.ofExcept (getProp json "title")) then
    setTitle (← JS.ofExcept (getProp (← JS.ofExcept (getProp json "title")) "title"))
  else
    setTitle (.string "Not Found")

/-- Lines 80-88 without the two `else if` branches. -/
def extractDescriptionPruned (json : JSValue) : JS Unit := do
  if toBoolean (← JS.ofExcept (getProp json "description")) then
    setDescription
      (← JS.ofExcept (getProp (← JS.ofExcept (getProp json "description")) "description"))
  else
    setDescription (.string "Not Found")

/-- Lines 90-98 without the two `else if` branches. -/
def extractImagePruned (json : JSValue) : JS Unit := do
  if toBoolean (← JS.ofExcept (getProp json "image")) then
    setImage (← JS.ofExcept (getProp (← JS.ofExcept (getProp json "image")) "logo"))
  else
    setImage (.string "Not Found")

/-- The `try` block with the three reduced statements. -/
def tryBlockPruned (url : String) (remote : FetchOutcome) : JS Unit := do
  let response ← fetch url remote
  if !response.ok then
    JS.throw (.error ("Response Status: " ++ toString response.status))
  let json ← JS.ofExcept response.json
  extractTitlePruned json
  extractDescriptionPruned json
  extractImagePruned json
  extractUrl json
  extractThemeColor json

/-- The routine `fetchData` with the `og:` and `twitter:` branches removed. -/
def fetchDataPruned (link : String) (remote : FetchOutcome) : JS Unit := do
  setLoadingState true
  let url := requestUrl link
  JS.tryFinally (JS.tryCatch (tryBlockPruned url remote) catchBlock) finallyBlock

/-! ## Vocabulary of the statements -/

/-- The five fields `fetchData` fills from the response. -/
inductive Field where
  | title
  | description
  | image
  | url
  | themeColor
  deriving DecidableEq

/-- The four content fields: all but the theme colour. -/
def Field.isContent : Field → Bool
  | .themeColor => false
  | _ => true

/-- The top-level key `fetchData` tests for a field. -/
def Field.key : Field → String
  | .title => "title"
  | .description => "description"
  | .image => "image"
  | .url => "url"
  | .themeColor => "themeColor"

/-- The sub-key `fetchData` reads for a field. -/
def Field.subKey : Field → String
  | .title => "title"
  | .description => "description"
  | .image => "logo"
  | .url => "url"
  | .themeColor => "themeColor"

/-- The property of the element a field is stored in. -/
def Field.get : Field → LinkPreviewCard → JSValue
  | .title, c => c.title
  | .description, c => c.description
  | .image, c => c.image
  | .url, c => c.url
  | .themeColor, c => c.themeColor

/-- A value is `undefined` or `null`: the values a property read throws on. -/
def isNullish : JSValue → Bool
  | .undefined => true
  | .null => true
  | _ => false

/-- The result of a property read on a value that is not nullish. -/
def propOf (v : JSValue) (key : String) : JSValue :=
  match v with
  | .object props => (props.lookup key).getD .undefined
  | _ => .undefined

/-- The value the reachable branches assign to a content field: the fixed
sub-key of the top-level value when that is truthy, `"Not Found"` otherwise. -/
def contentValue (json : JSValue) (key sub : String) : JSValue :=
  if toBoolean (propOf json key) then propOf (propOf json key) sub else .string "Not Found"

/-- The outcomes on which `fetchData` completes normally: an OK response whose
parsed body has a truthy `themeColor`. -/
def completesNormally (remote : FetchOutcome) : Bool :=
  match remote with
  | .rejected _ => false
  | .fulfilled r =>
    r.ok &&
      (match r.json with
       | .error _ => false
       | .ok j => toBoolean (propOf j "themeColor"))

/-- Number of re-render requests in a trace. -/
def updateRequests : List Effect → Nat
  | [] => 0
  | .requestUpdate :: es => updateRequests es + 1
  | _ :: es => updateRequests es

/-! ## Sample inputs -/

/-- An element whose theme colour was set by an earlier, successful fetch. -/
def sampleCard : LinkPreviewCard :=
  { title := .string "Old title", herf := "https://psu.edu/page",
    description := .string "Old description", image := .string "https://x/old.png",
    url := .string "https://psu.edu/old", link := "https://psu.edu/page",
    themeColor := .string "#123456", loadingState := false }

/-- The sample element with an empty trace. -/
def sampleWorld : World :=
  { card := sampleCard, effects := [] }

/-- The response body of the psu.edu scenario. -/
def psuJson : JSValue :=
  .object [("title", .object [("title", .string "Penn State")]),
           ("description", .object [("description", .string "A page")]),
           ("image", .object [("logo", .string "https://x/img.png")]),
           ("url", .object [("url", .string "https://psu.edu/page")]),
           ("themeColor", .object [("themeColor", .string "var(--ddd-theme-2)")])]

/-- Own properties of a body whose `title` carries only the `og:title`
variant. -/
def ogTitleProps : List (String × JSValue) :=
  [("title", .object [("og:title", .string "X")]),
   ("themeColor", .object [("themeColor", .string "var(--ddd-theme-15)")])]

/-- The body `{"title": {"og:title": "X"}, "themeColor": {...}}`. -/
def ogTitleJson : JSValue :=
  .object ogTitleProps

/-- Own properties of a body with an empty `title`, no `description`, `image`
or `url`, and a theme colour. -/
def emptyTitleProps : List (String × JSValue) :=
  [("title", .string ""),
   ("themeColor", .object [("themeColor", .string "var(--ddd-theme-15)")])]

/-- The body `{"title": "", "themeColor": {...}}`. -/
def emptyTitleJson : JSValue :=
  .object emptyTitleProps

/-- Own properties of the psu.edu body without its `image` key and with an
empty `description`. -/
def noImageProps : List (String × JSValue) :=
  [("title", .object [("title", .string "Penn State")]),
   ("description", .string ""),
   ("url", .object [("url", .string "https://psu.edu/page")]),
   ("themeColor", .object [("themeColor", .string "var(--ddd-theme-2)")])]

/-- The psu.edu body without its `image` key and with an empty `description`. -/
def noImageJson : JSValue :=
  .object noImageProps

/-! ## Laws of the computation type -/

@[simp] theorem JS.bind_eq {α β : Type} (x : JS α) (f : α → JS β) :
    (x >>= f) = JS.bind x f := rfl

@[simp] theorem JS.pure_eq {α : Type} (a : α) : (Pure.pure a : JS α) = JS.pure a := rfl

@[simp] theorem JS.ofExcept_ok_bind {α β : Type} (a : α) (f : α → JS β) :
    JS.bind (JS.ofExcept (.ok a)) f = f a := rfl

@[simp] theorem JS.ofExcept_error_bind {α β : Type} (e : JSError) (f : α → JS β) :
    JS.bind (JS.ofExcept (.error e)) f = JS.throw e := rfl

@[simp] theorem JS.throw_bind {α β : Type} (e : JSError) (f : α → JS β) :
    JS.bind (JS.throw e) f = JS.throw e := rfl

@[simp] theorem JS.pure_bind {α β : Type} (a : α) (f : α → JS β) :
    JS.bind (JS.pure a) f = f a := rfl

/-! ## Property reads -/

theorem getProp_of_not_nullish (v : JSValue) (key : String) (h : isNullish v = false) :
    getProp v key = .ok (propOf v key) := by
  cases v <;> simp_all [isNullish, getProp, propOf]
  rename_i props
  cases props.lookup key <;> rfl

theorem getProp_error_of_nullish (v : JSValue) (key : String) (h : isNullish v = true) :
    ∃ e, getProp v key = .error e := by
  cases v <;> simp_all [isNullish, getProp]

theorem not_nullish_of_truthy (v : JSValue) (h : toBoolean v = true) : isNullish v = false := by
  cases v <;> simp_all [isNullish, toBoolean]

theorem not_nullish_of_truthy_prop (v : JSValue) (key : String)
    (h : toBoolean (propOf v key) = true) : isNullish v = false := by
  cases v <;> simp_all [isNullish, toBoolean, propOf]

theorem truthy_of_strictEqualsString (v : JSValue) (lit : String) (hl : lit ≠ "")
    (h : strictEqualsString v lit = true) : toBoolean v = true := by
  cases v <;> simp_all [strictEqualsString, toBoolean]
  rename_i s
  intro hs
  apply hl
  cases lit
  simp_all

theorem strictEqualsString_of_falsy (v : JSValue) (lit : String) (hl : lit ≠ "")
    (h : toBoolean v = false) : strictEqualsString v lit = false := by
  cases hs : strictEqualsString v lit
  · rfl
  · rw [truthy_of_strictEqualsString v lit hl hs] at h
    exact absurd h (by decide)

/-! ## The extraction statements -/

theorem extractTitle_eq (json : JSValue) (h : isNullish json = false) :
    extractTitle json = setTitle (contentValue json "title" "title") := by
  have h1 := getProp_of_not_nullish json "title" h
  unfold extractTitle contentValue
  cases ht : toBoolean (propOf json "title")
  · have e1 := strictEqualsString_of_falsy _ "og:title" (by decide) ht
    have e2 := strictEqualsString_of_falsy _ "twitter:title" (by decide) ht
    simp [e1, e2, h1, ht]
  · have h2 := getProp_of_not_nullish _ "title" (not_nullish_of_truthy _ ht)
    simp [h2, h1, ht]

theorem extractDescription_eq (json : JSValue) (h : isNullish json = false) :
    extractDescription json = setDescription (contentValue json "description" "description") := by
  have h1 := getProp_of_not_nullish json "description" h
  unfold extractDescription contentValue
  cases ht : toBoolean (propOf json "description")
  · have e1 := strictEqualsString_of_falsy _ "og:description" (by decide) ht
    have e2 := strictEqualsString_of_falsy _ "twitter:description" (by decide) ht
    simp [e1, e2, h1, ht]
  · have h2 := getProp_of_not_nullish _ "description" (not_nullish_of_truthy _ ht)
    simp [h2, h1, ht]

theorem extractImage_eq (json : JSValue) (h : isNullish json = false) :
    extractImage json = setImage (contentValue json "image" "logo") := by
  have h1 := getProp_of_not_nullish json "image" h
  unfold extractImage contentValue
  cases ht : toBoolean (propOf json "image")
  · have e1 := strictEqualsString_of_falsy _ "og:image" (by decide) ht
    have e2 := strictEqualsString_of_falsy _ "twitter:image" (by decide) ht
    simp [e1, e2, h1, ht]
  · have h2 := getProp_of_not_nullish _ "logo" (not_nullish_of_truthy _ ht)
    simp [h2, h1, ht]

theorem extractUrl_eq (json : JSValue) (h : isNullish json = false) :
    extractUrl json = setUrl (contentValue json "url" "url") := by
  have h1 := getProp_of_not_nullish json "url" h
  unfold extractUrl contentValue
  cases ht : toBoolean (propOf json "url")
  · simp [h1, ht]
  · have h2 := getProp_of_not_nullish _ "url" (not_nullish_of_truthy _ ht)
    simp [h2, h1, ht]

theorem extractThemeColor_truthy (json : JSValue)
    (ht : toBoolean (propOf json "themeColor") = true) :
    extractThemeColor json = setThemeColor (propOf (propOf json "themeColor") "themeColor") := by
  have h1 := getProp_of_not_nullish json "themeColor" (not_nullish_of_truthy_prop _ _ ht)
  have h2 := getProp_of_not_nullish _ "themeColor" (not_nullish_of_truthy _ ht)
  unfold extractThemeColor
  simp [h1, h2, ht]

theorem extractThemeColor_falsy (json : JSValue) (h : isNullish json = false)
    (ht : toBoolean (propOf json "themeColor") = false) :
    extractThemeColor json = JS.throw (.referenceError "defaultTheme") := by
  have h1 := getProp_of_not_nullish json "themeColor" h
  unfold extractThemeColor
  simp [h1, ht, bareDefaultTheme]

theorem extractTitle_nullish (json : JSValue) (e : JSError)
    (h : getProp json "title" = .error e) : extractTitle json = JS.throw e := by
  unfold extractTitle
  simp [h]

theorem extractTitlePruned_eq (json : JSValue) : extractTitlePruned json = extractTitle json := by
  unfold extractTitlePruned extractTitle
  cases h1 : getProp json "title" with
  | error e => simp
  | ok t =>
    cases ht : toBoolean t
    · have e1 := strictEqualsString_of_falsy _ "og:title" (by decide) ht
      have e2 := strictEqualsString_of_falsy _ "twitter:title" (by decide) ht
      simp [e1, e2, ht]
    · simp [ht]

theorem extractDescriptionPruned_eq (json : JSValue) :
    extractDescriptionPruned json = extractDescription json := by
  unfold extractDescriptionPruned extractDescription
  cases h1 : getProp json "description" with
  | error e => simp
  | ok t =>
    cases ht : toBoolean t
    · have e1 := strictEqualsString_of_falsy _ "og:description" (by decide) ht
      have e2 := strictEqualsString_of_falsy _ "twitter:description" (by decide) ht
      simp [e1, e2, ht]
    · simp [ht]

theorem extractImagePruned_eq (json : JSValue) : extractImagePruned json = extractImage json := by
  unfold extractImagePruned extractImage
  cases h1 : getProp json "image" with
  | error e => simp
  | ok t =>
    cases ht : toBoolean t
    · have e1 := strictEqualsString_of_falsy _ "og:image" (by decide) ht
      have e2 := strictEqualsString_of_falsy _ "twitter:image" (by decide) ht
      simp [e1, e2, ht]
    · simp [ht]

theorem fetchDataPruned_eq : fetchDataPruned = fetchData := by
  funext link remote
  unfold fetchDataPruned fetchData tryBlockPruned tryBlock
  simp only [extractTitlePruned_eq, extractDescriptionPruned_eq, extractImagePruned_eq]

/-! ## Whole runs of `fetchData` -/

/-- The run on an OK response whose body has a truthy `themeColor`. -/
theorem fetchData_ok (link : String) (r : Response) (j : JSValue) (w : World)
    (hok : r.ok = true) (hj : r.json = .ok j)
    (ht : toBoolean (propOf j "themeColor") = true) :
    fetchData link (.fulfilled r) w =
      (.ok (),
       { card :=
           { w.card with
             title := contentValue j "title" "title"
             description := contentValue j "description" "description"
             image := contentValue j "image" "logo"
             url := contentValue j "url" "url"
             themeColor := propOf (propOf j "themeColor") "themeColor"
             loadingState := false }
         effects := w.effects ++
           [.write "loadingState" (.bool true), .fetch (requestUrl link),
            .write "title" (contentValue j "title" "title"),
            .write "description" (contentValue j "description" "description"),
            .write "image" (contentValue j "image" "logo"),
            .write "url" (contentValue j "url" "url"),
            .write "themeColor" (propOf (propOf j "themeColor") "themeColor"),
            .write "loadingState" (.bool false)] }) := by
  have hn := not_nullish_of_truthy_prop _ _ ht
  simp [fetchData, tryBlock, extractTitle_eq j hn, extractDescription_eq j hn,
    extractImage_eq j hn, extractUrl_eq j hn, extractThemeColor_truthy j ht,
    JS.bind, JS.tryFinally, JS.tryCatch, fetch, JS.emit, JS.pure, hok, hj, JS.ofExcept,
    setTitle, setDescription, setImage, setUrl, setThemeColor, setLoadingState, finallyBlock]

/-- The run of the guarded statement when the `try` block throws: the handler
overwrites the four content fields and then throws at the bare identifier, and
the `finally` block clears the flag. -/
theorem guarded_of_throw (body : JS Unit) (e : JSError) (w1 w2 : World)
    (h : body w1 = (.error e, w2)) :
    JS.tryFinally (JS.tryCatch body catchBlock) finallyBlock w1 =
      (.error (.referenceError "defaultTheme"),
       { card :=
           { w2.card with
             title := .string "Error finding website title"
             description := .string " "
             image := .string " "
             url := .string " "
             loadingState := false }
         effects := w2.effects ++
           [.consoleError "Error fetching metadata:" e,
            .write "title" (.string "Error finding website title"),
            .write "description" (.string " "),
            .write "image" (.string " "),
            .write "url" (.string " "),
            .write "loadingState" (.bool false)] }) := by
  simp [JS.tryFinally, JS.tryCatch, h, catchBlock, finallyBlock, JS.bind, JS.emit, JS.ofExcept,
    setTitle, setDescription, setImage, setUrl, setLoadingState, bareDefaultTheme,
    Bind.bind, Except.bind, JS.throw]

/-- When the run does not complete normally, the `try` block throws after the
request, having written at most the four content fields. -/
theorem tryBlock_throws (url : String) (remote : FetchOutcome) (w1 : World)
    (h : completesNormally remote = false) :
    ∃ e t d i u mid,
      tryBlock url remote w1 =
        (.error e,
         { card := { w1.card with title := t, description := d, image := i, url := u }
           effects := w1.effects ++ .fetch url :: mid }) ∧
      ∀ v, Effect.write "loadingState" v ∉ mid := by
  cases remote with
  | rejected reason =>
    exact ⟨reason, w1.card.title, w1.card.description, w1.card.image, w1.card.url, [], by
      simp [tryBlock, fetch, JS.bind, JS.emit, JS.throw], by simp⟩
  | fulfilled r =>
    cases hok : r.ok with
    | false =>
      exact ⟨.error ("Response Status: " ++ toString r.status), w1.card.title,
        w1.card.description, w1.card.image, w1.card.url, [], by
        simp [tryBlock, fetch, JS.bind, JS.emit, JS.throw, JS.pure, hok], by simp⟩
    | true =>
      cases hj : r.json with
      | error e =>
        exact ⟨e, w1.card.title, w1.card.description, w1.card.image, w1.card.url, [], by
          simp [tryBlock, fetch, JS.bind, JS.emit, JS.throw, JS.pure, JS.ofExcept, hok, hj],
          by simp⟩
      | ok j =>
        cases hn : isNullish j with
        | true =>
          obtain ⟨e, he⟩ := getProp_error_of_nullish j "title" hn
          exact ⟨e, w1.card.title, w1.card.description, w1.card.image, w1.card.url, [], by
            simp [tryBlock, fetch, JS.bind, JS.emit, JS.throw, JS.pure, JS.ofExcept, hok, hj,
              extractTitle_nullish j e he], by simp⟩
        | false =>
          have ht : toBoolean (propOf j "themeColor") = false := by
            simpa [completesNormally, hok, hj] using h
          exact ⟨.referenceError "defaultTheme", contentValue j "title" "title",
            contentValue j "description" "description", contentValue j "image" "logo",
            contentValue j "url" "url",
            [.write "title" (contentValue j "title" "title"),
             .write "description" (contentValue j "description" "description"),
             .write "image" (contentValue j "image" "logo"),
             .write "url" (contentValue j "url" "url")], by
            simp [tryBlock, fetch, JS.bind, JS.emit, JS.throw, JS.pure, JS.ofExcept, hok, hj,
              extractTitle_eq j hn, extractDescription_eq j hn, extractImage_eq j hn,
              extractUrl_eq j hn, extractThemeColor_falsy j hn ht,
              setTitle, setDescription, setImage, setUrl], by simp⟩

/-- The run of `fetchData` whenever it does not complete normally. -/
theorem fetchData_throws (link : String) (remote : FetchOutcome) (w : World)
    (h : completesNormally remote = false) :
    ∃ mid,
      fetchData link remote w =
        (.error (.referenceError "defaultTheme"),
         { card :=
             { w.card with
               title := .string "Error finding website title"
               description := .string " "
               image := .string " "
               url := .string " "
               loadingState := false }
           effects := w.effects ++
             (.write "loadingState" (.bool true) :: .fetch (requestUrl link) :: mid) ++
             [.write "loadingState" (.bool false)] }) ∧
      ∀ v, Effect.write "loadingState" v ∉ mid := by
  obtain ⟨e, t, d, i, u, mid, hb, hmid⟩ :=
    tryBlock_throws (requestUrl link) remote (setLoadingState true w).2 h
  refine ⟨mid ++ [.consoleError "Error fetching metadata:" e,
            .write "title" (.string "Error finding website title"),
            .write "description" (.string " "),
            .write "image" (.string " "),
            .write "url" (.string " ")], ?_, ?_⟩
  · have hg := guarded_of_throw _ e _ _ hb
    simp only [fetchData, bind, JS.bind]
    simp [setLoadingState] at hg ⊢
    rw [hg]
  · intro v hv
    rw [List.mem_append] at hv
    cases hv with
    | inl hv => exact hmid v hv
    | inr hv => simp at hv

/-! ## `includes` -/

theorem includesUnits_iff (needle hay : List Nat) :
    includesUnits needle hay = true ↔ needle <:+: hay := by
  induction hay with
  | nil => simp [includesUnits, List.infix_nil]
  | cons u us ih =>
    simp only [includesUnits, Bool.or_eq_true, ih, List.isPrefixOf_iff_prefix, List.infix_cons_iff]

theorem char_toNat_inj (c d : Char) (h : c.toNat = d.toNat) : c = d := by
  rw [← Char.ofNat_toNat c, ← Char.ofNat_toNat d, h]

/-- The first code unit of a character decides whether it is the single unit of
a character below the surrogate range. -/
theorem utf16Units_cons_prefix_iff (c d : Char) (hc : c.toNat < 0xD800) (xs ys : List Nat) :
    c.toNat :: xs <+: utf16Units d ++ ys ↔ c = d ∧ xs <+: ys := by
  unfold utf16Units
  by_cases hd : d.toNat < 0x10000
  · simp only [hd, if_true, List.singleton_append, List.cons_prefix_cons]
    constructor
    · rintro ⟨h1, h2⟩
      exact ⟨char_toNat_inj _ _ h1, h2⟩
    · rintro ⟨h1, h2⟩
      exact ⟨by rw [h1], h2⟩
  · simp only [hd, if_false, List.cons_append, List.cons_prefix_cons]
    constructor
    · rintro ⟨h1, _⟩
      omega
    · rintro ⟨h1, _⟩
      subst h1
      omega

theorem codeUnits_prefix_iff (needle hay : List Char) (hn : ∀ c ∈ needle, c.toNat < 0xD800) :
    needle.flatMap utf16Units <+: hay.flatMap utf16Units ↔ needle <+: hay := by
  induction needle generalizing hay with
  | nil => simp
  | cons c cs ih =>
    have hc : c.toNat < 0xD800 := hn c (List.mem_cons_self _ _)
    have hcs : ∀ x ∈ cs, x.toNat < 0xD800 := fun x hx => hn x (List.mem_cons_of_mem _ hx)
    have hu : utf16Units c = [c.toNat] := by
      unfold utf16Units
      rw [if_pos (by omega)]
    cases hay with
    | nil => simp [hu]
    | cons d ds =>
      simp only [List.flatMap_cons, hu, List.singleton_append, List.cons_prefix_cons]
      rw [utf16Units_cons_prefix_iff c d hc, ih ds hcs]

theorem codeUnits_infix_iff (needle hay : List Char) (hne : needle ≠ [])
    (hn : ∀ c ∈ needle, c.toNat < 0xD800) :
    needle.flatMap utf16Units <:+: hay.flatMap utf16Units ↔ needle <:+: hay := by
  obtain ⟨c, cs, rfl⟩ := List.exists_cons_of_ne_nil hne
  have hc : c.toNat < 0xD800 := hn c (List.mem_cons_self _ _)
  have hu : utf16Units c = [c.toNat] := by
    unfold utf16Units
    rw [if_pos (by omega)]
  induction hay with
  | nil => simp [hu]
  | cons d ds ih =>
    have key : (c :: cs).flatMap utf16Units <:+: (d :: ds).flatMap utf16Units ↔
        ((c :: cs).flatMap utf16Units <+: (d :: ds).flatMap utf16Units ∨
          (c :: cs).flatMap utf16Units <:+: ds.flatMap utf16Units) := by
      simp only [List.flatMap_cons]
      by_cases hd : d.toNat < 0x10000
      · have hud : utf16Units d = [d.toNat] := by
          unfold utf16Units
          rw [if_pos hd]
        rw [hud, List.singleton_append, List.infix_cons_iff]
      · have hud : utf16Units d =
            [0xD800 + (d.toNat - 0x10000) / 0x400, 0xDC00 + (d.toNat - 0x10000) % 0x400] := by
          unfold utf16Units
          rw [if_neg hd]
        rw [hud, hu]
        simp only [List.cons_append, List.nil_append, List.singleton_append]
        rw [List.infix_cons_iff, List.infix_cons_iff]
        constructor
        · rintro (h | h | h)
          · exact Or.inl h
          · exfalso
            rw [List.cons_prefix_cons] at h
            omega
          · exact Or.inr h
        · rintro (h | h)
          · exact Or.inl h
          · exact Or.inr (Or.inr h)
    rw [key, codeUnits_prefix_iff _ _ hn, List.infix_cons_iff]
    exact or_congr Iff.rfl ih

/-- On strings, `includes("psu.edu")` is the plain substring test. -/
theorem jsIncludes_psu (h : String) :
    jsIncludes h "psu.edu" = true ↔ "psu.edu".data <:+: h.data := by
  unfold jsIncludes codeUnits
  rw [includesUnits_iff]
  exact codeUnits_infix_iff _ _ (by decide) (by decide)

/-- On strings, `includes("psu.edu")` holds exactly when the string splits
around an occurrence of `psu.edu`. -/
theorem jsIncludes_psu_iff_split (h : String) :
    jsIncludes h "psu.edu" = true ↔ ∃ a b : String, h = a ++ "psu.edu" ++ b := by
  rw [jsIncludes_psu]
  constructor
  · rintro ⟨s, t, hst⟩
    exact ⟨⟨s⟩, ⟨t⟩, String.ext (by simp [String.data_append, hst])⟩
  · rintro ⟨a, b, rfl⟩
    exact ⟨a.data, b.data, by simp [String.data_append]⟩

/-! ## Auxiliary facts for the statements -/

theorem updateRequests_append (a b : List Effect) :
    updateRequests (a ++ b) = updateRequests a + updateRequests b := by
  induction a with
  | nil => simp [updateRequests]
  | cons e es ih =>
    cases e <;> simp [updateRequests, ih]
    omega

/-- The value `fetchData` leaves in a field after a run that completes normally. -/
theorem field_after_ok (link : String) (r : Response) (j : JSValue) (w : World)
    (hok : r.ok = true) (hj : r.json = .ok j)
    (ht : toBoolean (propOf j "themeColor") = true) (f : Field) :
    f.get (fetchData link (.fulfilled r) w).2.card =
      if f.isContent then contentValue j f.key f.subKey
      else propOf (propOf j "themeColor") "themeColor" := by
  rw [fetchData_ok link r j w hok hj ht]
  cases f <;> rfl

/-! ## The claims -/

/-- C1: for every link, every outcome of the remote call and every prior state,
`fetchData` first writes `loadingState = true`, issues the request right after,
writes the flag no more until its last event, the write `loadingState = false`,
and that is the value of the flag on completion, whether the run completes
normally or throws. -/
theorem fetchData_loadingState (link : String) (remote : FetchOutcome) (w : World) :
    ∃ mid,
      (fetchData link remote w).2.effects =
        w.effects ++
          (.write "loadingState" (.bool true) :: .fetch (requestUrl link) :: mid) ++
          [.write "loadingState" (.bool false)] ∧
      (∀ v, Effect.write "loadingState" v ∉ mid) ∧
      (fetchData link remote w).2.card.loadingState = false := by
  cases h : completesNormally remote with
  | false =>
    obtain ⟨mid, hm, hmid⟩ := fetchData_throws link remote w h
    exact ⟨mid, by rw [hm], hmid, by rw [hm]⟩
  | true =>
    cases remote with
    | rejected reason => simp [completesNormally] at h
    | fulfilled r =>
      cases hj : r.json with
      | error e => simp [completesNormally, hj] at h
      | ok j =>
        simp only [completesNormally, hj, Bool.and_eq_true] at h
        rw [fetchData_ok link r j w h.1 hj h.2]
        exact ⟨[.write "title" (contentValue j "title" "title"),
          .write "description" (contentValue j "description" "description"),
          .write "image" (contentValue j "image" "logo"),
          .write "url" (contentValue j "url" "url"),
          .write "themeColor" (propOf (propOf j "themeColor") "themeColor")],
          by simp, by simp, rfl⟩

/-- C2 (the code departs from the claim): on HTTP 500 the handler overwrites
the four content fields with the fixed error values and the flag is cleared,
but the call of the bare identifier `defaultTheme` throws before `themeColor`
is assigned: the element keeps the theme colour it had, here `#123456`, which
is not the default theme `var(--ddd-theme-2)` of its host. -/
theorem fetchData_http500_keeps_themeColor :
    (fetchData "https://psu.edu/page" (.fulfilled (httpResponse 500 (.ok .null)))
        sampleWorld).2.card =
      { sampleCard with
        title := .string "Error finding website title"
        description := .string " "
        image := .string " "
        url := .string " "
        themeColor := .string "#123456"
        loadingState := false } ∧
    defaultTheme sampleCard.herf = "var(--ddd-theme-2)" ∧
    (fetchData "https://psu.edu/page" (.fulfilled (httpResponse 500 (.ok .null)))
        sampleWorld).2.card.themeColor ≠ .string (defaultTheme sampleCard.herf) := by
  obtain ⟨mid, hm, _⟩ := fetchData_throws "https://psu.edu/page"
    (.fulfilled (httpResponse 500 (.ok .null))) sampleWorld rfl
  rw [hm]
  refine ⟨rfl, by decide, ?_⟩
  intro h
  have hs : "#123456" = defaultTheme sampleCard.herf := JSValue.string.inj h
  revert hs
  decide

/-- C3 (the code departs from the claim): when the request fails on the
network, the handler itself throws a ReferenceError at the bare identifier
`defaultTheme`, and `fetchData` completes by that exception. -/
theorem fetchData_network_failure_throws :
    (fetchData "https://psu.edu/page" (.rejected (.typeError "Failed to fetch"))
        sampleWorld).1 =
      .error (.referenceError "defaultTheme") := by
  obtain ⟨mid, hm, _⟩ := fetchData_throws "https://psu.edu/page"
    (.rejected (.typeError "Failed to fetch")) sampleWorld rfl
  rw [hm]

/-- C4: on an OK response whose parsed body is an object in which `title`,
`description`, `image`, `url` and `themeColor` are objects carrying the
sub-keys `title`, `description`, `logo`, `url` and `themeColor`, `fetchData`
completes normally and leaves each of the five fields at that nested value and
`loadingState` at false; the other properties keep their values. -/
theorem fetchData_full_response (link : String) (r : Response) (w : World)
    (props tp dp ip up cp : List (String × JSValue)) (tv dv iv uv cv : JSValue)
    (hok : r.ok = true) (hj : r.json = .ok (.object props))
    (ht : props.lookup "title" = some (.object tp)) (htv : tp.lookup "title" = some tv)
    (hd : props.lookup "description" = some (.object dp))
    (hdv : dp.lookup "description" = some dv)
    (hi : props.lookup "image" = some (.object ip)) (hiv : ip.lookup "logo" = some iv)
    (hu : props.lookup "url" = some (.object up)) (huv : up.lookup "url" = some uv)
    (hc : props.lookup "themeColor" = some (.object cp))
    (hcv : cp.lookup "themeColor" = some cv) :
    (fetchData link (.fulfilled r) w).1 = .ok () ∧
    (fetchData link (.fulfilled r) w).2.card =
      { w.card with
        title := tv
        description := dv
        image := iv
        url := uv
        themeColor := cv
        loadingState := false } := by
  have hth : toBoolean (propOf (.object props) "themeColor") = true := by
    simp [propOf, hc, toBoolean]
  rw [fetchData_ok link r _ w hok hj hth]
  simp [contentValue, propOf, toBoolean, ht, htv, hd, hdv, hi, hiv, hu, huv, hc, hcv]

/-- C4, the psu.edu scenario of the specification. -/
theorem fetchData_full_response_witness :
    (httpResponse 200 (.ok psuJson)).ok = true ∧
    (httpResponse 200 (.ok psuJson)).json = .ok psuJson ∧
    (fetchData "https://psu.edu/page" (.fulfilled (httpResponse 200 (.ok psuJson)))
        sampleWorld).1 = .ok () ∧
    (fetchData "https://psu.edu/page" (.fulfilled (httpResponse 200 (.ok psuJson)))
        sampleWorld).2.card =
      { sampleCard with
        title := .string "Penn State"
        description := .string "A page"
        image := .string "https://x/img.png"
        url := .string "https://psu.edu/page"
        themeColor := .string "var(--ddd-theme-2)"
        loadingState := false } :=
  ⟨rfl, rfl,
    fetchData_full_response "https://psu.edu/page" (httpResponse 200 (.ok psuJson)) sampleWorld
      _ _ _ _ _ _ _ _ _ _ _ rfl rfl rfl rfl rfl rfl rfl rfl rfl rfl rfl rfl⟩

/-- C5 (as stated, refuted): the body `{"title": "", "themeColor": {...}}` lacks
the key `image` and has the key `title`, whose value carries no nested value
(reading `title` of it yields `undefined`); the run completes normally and the
title is `"Not Found"`, not that nested value. -/
theorem fetchData_present_key_counterexample :
    (fetchData "https://psu.edu/page" (.fulfilled (httpResponse 200 (.ok emptyTitleJson)))
        sampleWorld).1 = .ok () ∧
    emptyTitleProps.lookup "image" = none ∧
    emptyTitleProps.lookup "title" = some (.string "") ∧
    getProp (.string "") "title" = .ok .undefined ∧
    (fetchData "https://psu.edu/page" (.fulfilled (httpResponse 200 (.ok emptyTitleJson)))
        sampleWorld).2.card.title = .string "Not Found" ∧
    (fetchData "https://psu.edu/page" (.fulfilled (httpResponse 200 (.ok emptyTitleJson)))
        sampleWorld).2.card.title ≠ .undefined := by
  rw [fetchData_ok "https://psu.edu/page" (httpResponse 200 (.ok emptyTitleJson)) emptyTitleJson
    sampleWorld rfl rfl rfl]
  refine ⟨rfl, rfl, rfl, rfl, rfl, ?_⟩
  intro h
  cases h

/-- C5 (amended): on an OK response whose parsed body is an object with a truthy
`themeColor`, the run completes normally; each content field whose top-level
key is absent is `"Not Found"`; each content field whose top-level value is
present but falsy is `"Not Found"` as well; and each of the five fields whose
top-level value is truthy holds the fixed sub-key of that value, whatever the
other keys are. -/
theorem fetchData_missing_key (link : String) (r : Response) (w : World)
    (props : List (String × JSValue)) (c : JSValue)
    (hok : r.ok = true) (hj : r.json = .ok (.object props))
    (hc : props.lookup "themeColor" = some c) (hct : toBoolean c = true) :
    (fetchData link (.fulfilled r) w).1 = .ok () ∧
    (∀ f : Field, f.isContent = true → props.lookup f.key = none →
      f.get (fetchData link (.fulfilled r) w).2.card = .string "Not Found") ∧
    (∀ f : Field, f.isContent = true → ∀ tv, props.lookup f.key = some tv →
      toBoolean tv = false →
      f.get (fetchData link (.fulfilled r) w).2.card = .string "Not Found") ∧
    (∀ g : Field, ∀ tv, props.lookup g.key = some tv → toBoolean tv = true →
      getProp tv g.subKey = .ok (g.get (fetchData link (.fulfilled r) w).2.card)) := by
  have hth : toBoolean (propOf (.object props) "themeColor") = true := by
    simp [propOf, hc, hct]
  refine ⟨by rw [fetchData_ok link r _ w hok hj hth], ?_, ?_, ?_⟩
  · intro f hf hnone
    rw [field_after_ok link r _ w hok hj hth f]
    simp [hf, contentValue, propOf, hnone, toBoolean]
  · intro f hf tv hsome hfalse
    rw [field_after_ok link r _ w hok hj hth f]
    simp [hf, contentValue, propOf, hsome, hfalse]
  · intro g tv hsome htv
    rw [field_after_ok link r _ w hok hj hth g]
    rw [getProp_of_not_nullish tv _ (not_nullish_of_truthy tv htv)]
    cases g <;> simp [Field.isContent, Field.key, Field.subKey, contentValue, propOf] at hsome ⊢
      <;> simp [hsome, htv]

/-- C5 (amended), on the psu.edu body without its `image` key and with an empty
`description`: the image and the description are `"Not Found"` and the title
is the nested title. -/
theorem fetchData_missing_key_witness :
    (httpResponse 200 (.ok noImageJson)).ok = true ∧
    noImageProps.lookup "image" = none ∧
    noImageProps.lookup "description" = some (.string "") ∧
    (fetchData "https://psu.edu/page" (.fulfilled (httpResponse 200 (.ok noImageJson)))
        sampleWorld).1 = .ok () ∧
    (fetchData "https://psu.edu/page" (.fulfilled (httpResponse 200 (.ok noImageJson)))
        sampleWorld).2.card.image = .string "Not Found" ∧
    (fetchData "https://psu.edu/page" (.fulfilled (httpResponse 200 (.ok noImageJson)))
        sampleWorld).2.card.description = .string "Not Found" ∧
    getProp (.object [("title", .string "Penn State")]) "title" =
      .ok (fetchData "https://psu.edu/page" (.fulfilled (httpResponse 200 (.ok noImageJson)))
        sampleWorld).2.card.title :=
  have h := fetchData_missing_key "https://psu.edu/page" (httpResponse 200 (.ok noImageJson))
    sampleWorld noImageProps (.object [("themeColor", .string "var(--ddd-theme-2)")])
    rfl rfl rfl rfl
  ⟨rfl, rfl, rfl, h.1, h.2.1 .image rfl rfl, h.2.2.1 .description rfl _ rfl rfl,
    h.2.2.2 .title _ rfl rfl⟩

/-- C6 (as stated, refuted): with `title = {"og:title": "X"}` the top-level key
is truthy and lacks the sub-key `title`; the run completes normally and the
title is `undefined`, not `"Not Found"`. -/
theorem fetchData_missing_subkey_counterexample :
    (fetchData "https://psu.edu/page" (.fulfilled (httpResponse 200 (.ok ogTitleJson)))
        sampleWorld).1 = .ok () ∧
    ogTitleProps.lookup "title" = some (.object [("og:title", .string "X")]) ∧
    getProp (.object [("og:title", .string "X")]) "title" = .ok .undefined ∧
    (fetchData "https://psu.edu/page" (.fulfilled (httpResponse 200 (.ok ogTitleJson)))
        sampleWorld).2.card.title = .undefined ∧
    (fetchData "https://psu.edu/page" (.fulfilled (httpResponse 200 (.ok ogTitleJson)))
        sampleWorld).2.card.title ≠ .string "Not Found" := by
  rw [fetchData_ok "https://psu.edu/page" (httpResponse 200 (.ok ogTitleJson)) ogTitleJson
    sampleWorld rfl rfl rfl]
  refine ⟨rfl, rfl, rfl, rfl, ?_⟩
  intro h
  cases h

/-- C6 (amended): on an OK response whose parsed body has a truthy `themeColor`,
the run completes normally and, for each content field, the field is
`"Not Found"` when its top-level value is absent or otherwise falsy, and is
`undefined` when its top-level value is truthy but does not carry the expected
sub-key. -/
theorem fetchData_missing_subkey (link : String) (r : Response) (w : World)
    (j c : JSValue) (hok : r.ok = true) (hj : r.json = .ok j)
    (hc : getProp j "themeColor" = .ok c) (hct : toBoolean c = true) :
    (fetchData link (.fulfilled r) w).1 = .ok () ∧
    ∀ f : Field, f.isContent = true → ∀ tv, getProp j f.key = .ok tv →
      (toBoolean tv = false →
        f.get (fetchData link (.fulfilled r) w).2.card = .string "Not Found") ∧
      (toBoolean tv = true → getProp tv f.subKey = .ok .undefined →
        f.get (fetchData link (.fulfilled r) w).2.card = .undefined) := by
  have hn : isNullish j = false := by
    cases j <;> simp_all [isNullish, getProp]
  have hth : toBoolean (propOf j "themeColor") = true := by
    rw [getProp_of_not_nullish j _ hn] at hc
    cases hc
    exact hct
  refine ⟨by rw [fetchData_ok link r _ w hok hj hth], ?_⟩
  intro f hf tv htv
  rw [getProp_of_not_nullish j _ hn] at htv
  cases htv
  rw [field_after_ok link r _ w hok hj hth f]
  constructor
  · intro hfalse
    simp [hf, contentValue, hfalse]
  · intro htrue hsub
    rw [getProp_of_not_nullish _ _ (not_nullish_of_truthy _ htrue)] at hsub
    have hs := Except.ok.inj hsub
    simp [hf, contentValue, htrue, hs]

/-- C6 (amended), on `title = {"og:title": "X"}`. -/
theorem fetchData_missing_subkey_witness :
    (httpResponse 200 (.ok ogTitleJson)).ok = true ∧
    toBoolean (.object [("themeColor", .string "var(--ddd-theme-15)")]) = true ∧
    (fetchData "https://psu.edu/page" (.fulfilled (httpResponse 200 (.ok ogTitleJson)))
        sampleWorld).1 = .ok () ∧
    (fetchData "https://psu.edu/page" (.fulfilled (httpResponse 200 (.ok ogTitleJson)))
        sampleWorld).2.card.title = .undefined ∧
    (fetchData "https://psu.edu/page" (.fulfilled (httpResponse 200 (.ok ogTitleJson)))
        sampleWorld).2.card.image = .string "Not Found" :=
  have h := fetchData_missing_subkey "https://psu.edu/page" (httpResponse 200 (.ok ogTitleJson))
    sampleWorld ogTitleJson (.object [("themeColor", .string "var(--ddd-theme-15)")])
    rfl rfl rfl rfl
  ⟨rfl, rfl, h.1, ((h.2 .title rfl _ rfl).2 rfl rfl), ((h.2 .image rfl _ rfl).1 rfl)⟩

/-- C7: for every host string, `defaultTheme` returns `var(--ddd-theme-2)`
exactly when the string contains `psu.edu`, `var(--ddd-theme-15)` exactly when
it does not, and so never anything else. -/
theorem defaultTheme_spec (herf : String) :
    (defaultTheme herf = "var(--ddd-theme-2)" ↔
      ∃ a b : String, herf = a ++ "psu.edu" ++ b) ∧
    (defaultTheme herf = "var(--ddd-theme-15)" ↔
      ¬ ∃ a b : String, herf = a ++ "psu.edu" ++ b) ∧
    (defaultTheme herf = "var(--ddd-theme-2)" ∨ defaultTheme herf = "var(--ddd-theme-15)") := by
  rw [← jsIncludes_psu_iff_split]
  unfold defaultTheme
  cases jsIncludes herf "psu.edu" <;> simp

/-- C8 (the code departs from the claim): `new LinkPreviewCard()` throws a
ReferenceError at the call of the bare identifier `defaultTheme` on line 29 and
yields no element. -/
theorem construct_throws :
    construct = .error (.referenceError "defaultTheme") := by
  rfl

/-- C9: for every state, `ImageError` completes normally, sets `image` to
`" "`, leaves `title`, `description`, `url`, `link`, `herf`, `themeColor` and
`loadingState` as they were, and adds exactly one re-render request to the
trace. -/
theorem ImageError_spec (w : World) :
    (ImageError w).1 = .ok () ∧
    (ImageError w).2.card.image = .string " " ∧
    (ImageError w).2.card.title = w.card.title ∧
    (ImageError w).2.card.description = w.card.description ∧
    (ImageError w).2.card.url = w.card.url ∧
    (ImageError w).2.card.link = w.card.link ∧
    (ImageError w).2.card.herf = w.card.herf ∧
    (ImageError w).2.card.themeColor = w.card.themeColor ∧
    (ImageError w).2.card.loadingState = w.card.loadingState ∧
    (ImageError w).2.effects =
      w.effects ++
        [.consoleLog "Image failed to load", .write "image" (.string " "), .requestUpdate] ∧
    updateRequests (ImageError w).2.effects = updateRequests w.effects + 1 := by
  have h : ImageError w =
      (.ok (), { card := { w.card with image := .string " " },
                 effects := w.effects ++ [.consoleLog "Image failed to load",
                   .write "image" (.string " "), .requestUpdate] }) := by
    simp [ImageError, JS.bind, JS.emit, setImage]
  rw [h]
  refine ⟨rfl, rfl, rfl, rfl, rfl, rfl, rfl, rfl, rfl, rfl, ?_⟩
  rw [updateRequests_append]
  rfl

/-- C10: the `og:` and `twitter:` branches are never taken. For every parsed
value (also a top-level string such as `"og:title"`) the three statements of
lines 70-98 run exactly as their versions without those branches, where each
of title, description and image is the fixed sub-key read when the top-level
key is truthy and `"Not Found"` otherwise; and for every link, every outcome of
the remote call and every prior state `fetchData` runs exactly as the routine
with the branches removed. -/
theorem fetchData_alt_branches_unreachable (link : String) (remote : FetchOutcome)
    (w : World) :
    (∀ json : JSValue,
      extractTitle json = extractTitlePruned json ∧
      extractDescription json = extractDescriptionPruned json ∧
      extractImage json = extractImagePruned json) ∧
    fetchData link remote w = fetchDataPruned link remote w := by
  refine ⟨fun json => ⟨?_, ?_, ?_⟩, ?_⟩
  · rw [extractTitlePruned_eq]
  · rw [extractDescriptionPruned_eq]
  · rw [extractImagePruned_eq]
  · rw [fetchDataPruned_eq]

end LinkCard
